import Mathlib

/-!
Verification of the Bedrock connector script (src/pp.py): the model-family
dispatch in `BedrockConnector.invoke_model`, the three request-body builders,
the three response parsers, and the SNS helper `send_sns_message`.

Python exceptions are modelled by the inductive `PyError`; a function that can
raise returns `Except PyError _`.  A Python function that either returns a
value or returns `None` after catching an exception has Lean result type
`Except PyError (Option _)`: `Except.ok (some v)` is a normal return,
`Except.ok none` is a `return None`, and `Except.error e` is an uncaught
exception propagating to the caller.  The boto3 runtime client is an injected
function argument.  Floating-point generation parameters carry no arithmetic
in the source (they are only stored and compared), so they are modelled as
rationals.
-/

/-- Decides whether the character list starting at the given position begins
with `pat` (Python `s.startswith`). -/
def startsWithChars : List Char → List Char → Bool
  | [], _ => true
  | _ :: _, [] => false
  | a :: as, b :: bs => a == b && startsWithChars as bs

/-- Decides whether `pat` occurs as a contiguous run inside the list
(the Python substring test used by `in`). -/
def hasSubChars (pat : List Char) : List Char → Bool
  | [] => pat.isEmpty
  | c :: rest => startsWithChars pat (c :: rest) || hasSubChars pat rest

/-- Python `pat in hay` on strings: substring containment. -/
def strContains (hay pat : String) : Bool :=
  hasSubChars pat.data hay.data

/-- Python exception kinds that the script can raise or catch.
`clientError` is botocore ClientError (the only kind the adapter catches in
`invoke_model`); `valueError` is the unsupported-model error; `keyError` and
`indexError` arise from dictionary and list subscripts while parsing;
`otherError` stands for every remaining exception class an external call can
raise (botocore has non-ClientError failures, e.g. connection errors). -/
inductive PyError where
  | valueError (msg : String)
  | clientError (msg : String)
  | keyError (key : String)
  | indexError
  | otherError (msg : String)
deriving DecidableEq, Repr

/-- Body built by `_create_anthropic_body`. -/
structure AnthropicBody where
  prompt : String
  max_tokens_to_sample : Nat
  temperature : ℚ
  stop_sequences : List String
deriving DecidableEq, Repr

/-- The nested `textGenerationConfig` object of a Titan body. -/
structure TextGenerationConfig where
  maxTokenCount : Nat
  temperature : ℚ
  topP : ℚ
deriving DecidableEq, Repr

/-- Body built by `_create_titan_body`. -/
structure TitanBody where
  inputText : String
  textGenerationConfig : TextGenerationConfig
deriving DecidableEq, Repr

/-- Body built by `_create_ai21_body`. -/
structure AI21Body where
  prompt : String
  maxTokens : Nat
  temperature : ℚ
  topP : ℚ
deriving DecidableEq, Repr

/-- The serialized request body handed to the runtime client: one of the
three family-specific shapes. -/
inductive RequestBody where
  | anthropic (b : AnthropicBody)
  | titan (b : TitanBody)
  | ai21 (b : AI21Body)
deriving DecidableEq, Repr

/-- One element of a Titan response `results` list. -/
structure TitanResult where
  outputText : String
deriving DecidableEq, Repr

/-- The `data` object inside an AI21 completion. -/
structure AI21Data where
  text : String
deriving DecidableEq, Repr

/-- One element of an AI21 response `completions` list. -/
structure AI21Completion where
  data : AI21Data
deriving DecidableEq, Repr

/-- The decoded JSON response body returned by the runtime client.  Each
field is `none` when the corresponding key is absent from the JSON object
(so `{}` is `⟨none, none, none⟩`). -/
structure ResponseBody where
  completion : Option String
  results : Option (List TitanResult)
  completions : Option (List AI21Completion)
deriving DecidableEq, Repr

/-- The injected `bedrock-runtime` client: takes modelId, body, contentType
and accept, and returns the decoded response body or raises. -/
def InvokeClient : Type :=
  String → RequestBody → String → String → Except PyError ResponseBody

/-- `_create_anthropic_body(prompt, max_tokens=1000, temperature=0.5)`.
Absent keyword arguments are `none` and fall back to the Python defaults. -/
def create_anthropic_body (prompt : String) (max_tokens : Option Nat)
    (temperature : Option ℚ) : AnthropicBody :=
  { prompt := "\n\nHuman: " ++ prompt ++ "\n\nAssistant:"
    max_tokens_to_sample := max_tokens.getD 1000
    temperature := temperature.getD 0.5
    stop_sequences := ["\n\nHuman:"] }

/-- `_create_titan_body(prompt, max_tokens=1000, temperature=0.5)`. -/
def create_titan_body (prompt : String) (max_tokens : Option Nat)
    (temperature : Option ℚ) : TitanBody :=
  { inputText := prompt
    textGenerationConfig :=
      { maxTokenCount := max_tokens.getD 1000
        temperature := temperature.getD 0.5
        topP := 0.9 } }

/-- `_create_ai21_body(prompt, max_tokens=1000, temperature=0.5)`. -/
def create_ai21_body (prompt : String) (max_tokens : Option Nat)
    (temperature : Option ℚ) : AI21Body :=
  { prompt := prompt
    maxTokens := max_tokens.getD 1000
    temperature := temperature.getD 0.5
    topP := 0.9 }

/-- The dispatch at the top of `invoke_model`: the substring if/elif chain
that selects the family and builds the body, or raises
`ValueError(f"Unsupported model: {model_id}")`. -/
def makeBody (model_id prompt : String) (max_tokens : Option Nat)
    (temperature : Option ℚ) : Except PyError RequestBody :=
  if strContains model_id "anthropic.claude" then
    Except.ok (RequestBody.anthropic (create_anthropic_body prompt max_tokens temperature))
  else if strContains model_id "amazon.titan" then
    Except.ok (RequestBody.titan (create_titan_body prompt max_tokens temperature))
  else if strContains model_id "ai21.j2" then
    Except.ok (RequestBody.ai21 (create_ai21_body prompt max_tokens temperature))
  else
    Except.error (PyError.valueError ("Unsupported model: " ++ model_id))

/-- `_parse_anthropic_response`: `response_body.get('completion', 'No response')`. -/
def parse_anthropic_response (r : ResponseBody) : String :=
  r.completion.getD "No response"

/-- `_parse_titan_response`: `response_body['results'][0]['outputText']`.
A missing `results` key raises KeyError; an empty list raises IndexError. -/
def parse_titan_response (r : ResponseBody) : Except PyError String :=
  match r.results with
  | none => Except.error (PyError.keyError "results")
  | some l =>
    match l.get? 0 with
    | none => Except.error PyError.indexError
    | some t => Except.ok t.outputText

/-- `_parse_ai21_response`: `response_body['completions'][0]['data']['text']`. -/
def parse_ai21_response (r : ResponseBody) : Except PyError String :=
  match r.completions with
  | none => Except.error (PyError.keyError "completions")
  | some l =>
    match l.get? 0 with
    | none => Except.error PyError.indexError
    | some c => Except.ok c.data.text

/-- The `try` block of `invoke_model`: build the body, call the client with
content type and accept both `application/json`, then parse according to the
same substring dispatch.  The final `Except.ok none` is the implicit
`return None` of the Python function when no parse branch matches. -/
def invoke_try (client : InvokeClient) (model_id prompt : String)
    (max_tokens : Option Nat) (temperature : Option ℚ) :
    Except PyError (Option String) := do
  let body ← makeBody model_id prompt max_tokens temperature
  let resp ← client model_id body "application/json" "application/json"
  if strContains model_id "anthropic.claude" then
    return some (parse_anthropic_response resp)
  else if strContains model_id "amazon.titan" then
    let s ← parse_titan_response resp
    return some s
  else if strContains model_id "ai21.j2" then
    let s ← parse_ai21_response resp
    return some s
  else
    return none

/-- `BedrockConnector.invoke_model`: runs the `try` block; `except
ClientError` prints a diagnostic and returns `None`; every other exception
propagates. -/
def invoke_model (client : InvokeClient) (model_id prompt : String)
    (max_tokens : Option Nat) (temperature : Option ℚ) :
    Except PyError (Option String) :=
  match invoke_try client model_id prompt max_tokens temperature with
  | Except.error (PyError.clientError _) => Except.ok none
  | r => r

/-- A successful SNS publish response; the script reads its `MessageId`. -/
structure PublishResponse where
  MessageId : String
deriving DecidableEq, Repr

/-- The injected SNS capability: region, topic ARN, message and subject in,
publish response out (or an exception). -/
def SnsPublish : Type :=
  String → String → String → String → Except PyError PublishResponse

/-- `send_sns_message(topic_arn, message, region)`: publishes with the fixed
subject `SNS Notification`; `except Exception` catches every exception kind,
prints a diagnostic and returns `None`. -/
def send_sns_message (publish : SnsPublish) (topic_arn message region : String) :
    Option PublishResponse :=
  match publish region topic_arn message "SNS Notification" with
  | Except.ok r => some r
  | Except.error _ => none

/-- C1: `invoke_model` classifies every model_id by substring containment in
the fixed precedence anthropic.claude, then amazon.titan, then ai21.j2, and
otherwise raises the unsupported-model error; a model_id containing more
than one substring is handled by the earlier rule (the first conjunct holds
whatever the other two tests say, and so on down the chain). -/
theorem c1_dispatch_precedence (mid p : String) (mt : Option Nat) (t : Option ℚ) :
    (strContains mid "anthropic.claude" = true →
      makeBody mid p mt t
        = Except.ok (RequestBody.anthropic (create_anthropic_body p mt t))) ∧
    (strContains mid "anthropic.claude" = false →
      strContains mid "amazon.titan" = true →
      makeBody mid p mt t
        = Except.ok (RequestBody.titan (create_titan_body p mt t))) ∧
    (strContains mid "anthropic.claude" = false →
      strContains mid "amazon.titan" = false →
      strContains mid "ai21.j2" = true →
      makeBody mid p mt t
        = Except.ok (RequestBody.ai21 (create_ai21_body p mt t))) ∧
    (strContains mid "anthropic.claude" = false →
      strContains mid "amazon.titan" = false →
      strContains mid "ai21.j2" = false →
      makeBody mid p mt t
        = Except.error (PyError.valueError ("Unsupported model: " ++ mid))) := by
  unfold makeBody
  refine ⟨?_, ?_, ?_, ?_⟩ <;> intros <;> simp_all

/-- C1 witness: a model_id containing both the anthropic and the titan
substrings is dispatched by the earlier (Anthropic) rule. -/
theorem c1_witness :
    makeBody "anthropic.claude-on-amazon.titan" "hi" none none
      = Except.ok (RequestBody.anthropic (create_anthropic_body "hi" none none)) :=
  (c1_dispatch_precedence "anthropic.claude-on-amazon.titan" "hi" none none).1 (by decide)

/-- C2: for a model_id containing none of the three substrings,
`invoke_model` raises ValueError synchronously whatever the client does (so
the result is independent of the client and no client call is made), and the
error reaches the caller rather than being swallowed by the ClientError
handler. -/
theorem c2_unsupported_propagates (client : InvokeClient) (mid p : String)
    (mt : Option Nat) (t : Option ℚ)
    (h1 : strContains mid "anthropic.claude" = false)
    (h2 : strContains mid "amazon.titan" = false)
    (h3 : strContains mid "ai21.j2" = false) :
    invoke_model client mid p mt t
      = Except.error (PyError.valueError ("Unsupported model: " ++ mid)) := by
  unfold invoke_model invoke_try makeBody
  simp [h1, h2, h3, Bind.bind, Except.bind]

/-- C2 witness: invoking `gpt-4` fails with the unsupported-model error even
against a client that would answer every request successfully. -/
theorem c2_witness :
    invoke_model (fun _ _ _ _ => Except.ok ⟨some "ok", none, none⟩)
        "gpt-4" "hi" none none
      = Except.error (PyError.valueError ("Unsupported model: " ++ "gpt-4")) :=
  c2_unsupported_propagates _ "gpt-4" "hi" none none (by decide) (by decide) (by decide)

/-- C3 counterexample: the claim says every failure raised by the external
client is caught and converted to a null result, but the adapter catches
only ClientError.  A client failing with a non-ClientError exception on a
supported model makes `invoke_model` propagate that exception instead of
returning `None`. -/
theorem c3_counterexample :
    invoke_model (fun _ _ _ _ => Except.error (PyError.otherError "connection timeout"))
        "anthropic.claude-v2" "hi" none none
      = Except.error (PyError.otherError "connection timeout") := by
  rfl

/-- C3 (amended): for every supported model_id, a ClientError raised by the
external client during the invocation is caught by the top-level handler and
`invoke_model` returns `None` instead of propagating. -/
theorem c3_client_error_caught (client : InvokeClient) (mid p : String)
    (mt : Option Nat) (t : Option ℚ) (b : RequestBody) (m : String)
    (hb : makeBody mid p mt t = Except.ok b)
    (hc : client mid b "application/json" "application/json"
        = Except.error (PyError.clientError m)) :
    invoke_model client mid p mt t = Except.ok none := by
  unfold invoke_model invoke_try
  rw [hb]
  simp [Bind.bind, Except.bind, hc]

/-- C3 witness: a client raising ClientError on a supported model yields a
`None` result. -/
theorem c3_witness :
    invoke_model (fun _ _ _ _ => Except.error (PyError.clientError "throttled"))
        "anthropic.claude-v2" "hi" none none
      = Except.ok none :=
  c3_client_error_caught _ "anthropic.claude-v2" "hi" none none
    (RequestBody.anthropic (create_anthropic_body "hi" none none)) "throttled" rfl rfl

/-- C4: whatever prompt, max_tokens and temperature the caller supplies, the
Titan body nests `topP = 0.9` and the Jurassic body carries `topP = 0.9`;
the caller has no way to change it. -/
theorem c4_topP_fixed (p : String) (mt : Option Nat) (t : Option ℚ) :
    (create_titan_body p mt t).textGenerationConfig.topP = 0.9 ∧
    (create_ai21_body p mt t).topP = 0.9 :=
  ⟨rfl, rfl⟩

/-- C5: the Anthropic body wraps the prompt exactly as
`"\n\nHuman: " ++ prompt ++ "\n\nAssistant:"`, fixes the stop-sequence list
to the one-element `["\n\nHuman:"]`, and carries the supplied (or default)
max_tokens_to_sample and temperature. -/
theorem c5_anthropic_body (p : String) (mt : Option Nat) (t : Option ℚ) :
    (create_anthropic_body p mt t).prompt = "\n\nHuman: " ++ p ++ "\n\nAssistant:" ∧
    (create_anthropic_body p mt t).stop_sequences = ["\n\nHuman:"] ∧
    (create_anthropic_body p mt t).max_tokens_to_sample = mt.getD 1000 ∧
    (create_anthropic_body p mt t).temperature = t.getD 0.5 :=
  ⟨rfl, rfl, rfl, rfl⟩

/-- C6: Anthropic response parsing returns the value of the `completion`
field when present, and the literal `"No response"` when it is absent
(whatever the other fields hold, covering the empty object `{}`). -/
theorem c6_parse_anthropic (s : String) (rs : Option (List TitanResult))
    (cs : Option (List AI21Completion)) :
    parse_anthropic_response ⟨some s, rs, cs⟩ = s ∧
    parse_anthropic_response ⟨none, rs, cs⟩ = "No response" :=
  ⟨rfl, rfl⟩

/-- C7: end-to-end Titan scenario.  The first conjunct pins the exact body
built for model_id `amazon.titan-text-express-v1` with the given prompt,
max_tokens 200 and temperature 0.8.  The second runs `invoke_model` against
a client that answers with the mock response only when called with exactly
that modelId, body and headers (and raises otherwise), so the final result
`some "roses are red"` also certifies what was sent. -/
theorem c7_titan_end_to_end :
    makeBody "amazon.titan-text-express-v1" "Write a short poem about AI"
        (some 200) (some 0.8)
      = Except.ok (RequestBody.titan
          { inputText := "Write a short poem about AI"
            textGenerationConfig := { maxTokenCount := 200, temperature := 0.8, topP := 0.9 } }) ∧
    invoke_model
      (fun mid body ct acc =>
        if mid == "amazon.titan-text-express-v1"
            && body == RequestBody.titan
                 { inputText := "Write a short poem about AI"
                   textGenerationConfig :=
                     { maxTokenCount := 200, temperature := 0.8, topP := 0.9 } }
            && ct == "application/json" && acc == "application/json" then
          Except.ok { completion := none
                      results := some [{ outputText := "roses are red" }]
                      completions := none }
        else
          Except.error (PyError.otherError "unexpected request"))
      "amazon.titan-text-express-v1" "Write a short poem about AI"
      (some 200) (some 0.8)
      = Except.ok (some "roses are red") := by
  have hA : strContains "amazon.titan-text-express-v1" "anthropic.claude" = false := by decide
  have hT : strContains "amazon.titan-text-express-v1" "amazon.titan" = true := by decide
  constructor
  · unfold makeBody
    rw [hA, hT]
    simp [create_titan_body]
  · unfold invoke_model invoke_try makeBody
    rw [hA, hT]
    simp [create_titan_body, parse_titan_response, Bind.bind, Except.bind,
      Pure.pure, Except.pure]

/-- C8: the Titan and Jurassic parsers are not total: on a response whose
result list is present but empty they raise IndexError instead of returning
a text value or the `"No response"` sentinel. -/
theorem c8_empty_list_fault (c : Option String) (rs : Option (List TitanResult))
    (cs : Option (List AI21Completion)) :
    parse_titan_response ⟨c, some [], cs⟩ = Except.error PyError.indexError ∧
    parse_ai21_response ⟨c, rs, some []⟩ = Except.error PyError.indexError :=
  ⟨rfl, rfl⟩

/-- C9: when the caller supplies no generation parameters, each of the three
body builders falls back to max_tokens 1000 and temperature 0.5, stored as
max_tokens_to_sample, maxTokenCount and maxTokens respectively. -/
theorem c9_defaults (p : String) :
    (create_anthropic_body p none none).max_tokens_to_sample = 1000 ∧
    (create_anthropic_body p none none).temperature = 0.5 ∧
    (create_titan_body p none none).textGenerationConfig.maxTokenCount = 1000 ∧
    (create_titan_body p none none).textGenerationConfig.temperature = 0.5 ∧
    (create_ai21_body p none none).maxTokens = 1000 ∧
    (create_ai21_body p none none).temperature = 0.5 :=
  ⟨rfl, rfl, rfl, rfl, rfl, rfl⟩

/-- C10: `send_sns_message` converts every exception raised by the SNS
publish capability into a `None` return (its result type has no error
channel, so nothing propagates), and on success it returns the publish
response carrying the message identifier unchanged. -/
theorem c10_sns_swallows (publish : SnsPublish) (arn msg region : String) :
    (∀ e : PyError, publish region arn msg "SNS Notification" = Except.error e →
      send_sns_message publish arn msg region = none) ∧
    (∀ r : PublishResponse, publish region arn msg "SNS Notification" = Except.ok r →
      send_sns_message publish arn msg region = some r) := by
  constructor <;> intro x h <;> unfold send_sns_message <;> rw [h]

/-- C10 witness: a publish capability that raises yields `None`; one that
succeeds yields its response. -/
theorem c10_witness :
    send_sns_message (fun _ _ _ _ => Except.error (PyError.otherError "boom"))
        "arn:aws:sns:eu-central-1:346430704880:myNotify" "hi" "eu-central-1" = none ∧
    send_sns_message (fun _ _ _ _ => Except.ok ⟨"msg-1"⟩) "a" "m" "r" = some ⟨"msg-1"⟩ :=
  ⟨(c10_sns_swallows (fun _ _ _ _ => Except.error (PyError.otherError "boom"))
      "arn:aws:sns:eu-central-1:346430704880:myNotify" "hi" "eu-central-1").1
      (PyError.otherError "boom") rfl,
   (c10_sns_swallows (fun _ _ _ _ => Except.ok ⟨"msg-1"⟩) "a" "m" "r").2 ⟨"msg-1"⟩ rfl⟩
